import Mathlib

/-!
Verification of the QuantumNetworkMetrics metrics core.

Shallow embedding of the metrics package (`src/metrics/`) of the
QuantumNetworkMetrics repository:

* the stateless formula library (`throughput.py`, `latency.py`,
  `fairness.py`, `robustness.py`, duplicated in `metrics.py`);
* the request ledger `MetricsCollector` (`metrics_collector.py`);
* the two aggregators: `aggregate_metrics` from `aggregate_metrics.py`
  (the one `MetricsCollector` imports) and the one from `metrics.py`.

Python floats are modelled as exact rationals; the IEEE special values
that the code can actually produce (`float('inf')`, `-inf` from the
sentinel window arithmetic, `nan` from 0.0/0.0 in numpy) are modelled
explicitly by the `PyFloat` type.  Python dicts keyed by request id or
node id are modelled as insertion-ordered association lists.  Quantum
states are opaque to the metrics code except for `len(...)` of the
stored density-matrix array, so a delivered state is modelled by its
row count.
-/

set_option linter.unusedVariables false

/-- A Python float value as produced by this code base: an exact rational,
positive infinity, negative infinity, or NaN.  Rounding of finite values is
not modelled. -/
inductive PyFloat where
  | num (q : ℚ)
  | inf
  | ninf
  | nan
deriving DecidableEq, Repr

/-- Float division `a / b` of finite operands, including numpy's behaviour on
division by zero: `0.0/0.0 = nan`, `x/0.0 = ±inf` for `x ≠ 0` (numpy emits a
warning, not an exception). -/
def pyDiv (a b : ℚ) : PyFloat :=
  if b = 0 then (if a = 0 then .nan else if 0 < a then .inf else .ninf)
  else .num (a / b)

/-- Python's builtin `min(stored, q)`: the stored value is kept unless `q`
compares strictly smaller (so a stored NaN is kept, and `float('inf')` is
always replaced). -/
def pyMin (f : PyFloat) (q : ℚ) : PyFloat :=
  match f with
  | .num a => if q < a then .num q else .num a
  | .inf => .num q
  | .ninf => .ninf
  | .nan => .nan

/-- Float subtraction `l - f` with a finite left operand. -/
def pySubQ (l : ℚ) (f : PyFloat) : PyFloat :=
  match f with
  | .num a => .num (l - a)
  | .inf => .ninf
  | .ninf => .inf
  | .nan => .nan

/-- IEEE float addition restricted to the values this code can produce
(`+inf + -inf = nan`, NaN propagates). -/
def pfAdd (a b : PyFloat) : PyFloat :=
  match a, b with
  | .nan, _ => .nan
  | _, .nan => .nan
  | .inf, .ninf => .nan
  | .ninf, .inf => .nan
  | .inf, _ => .inf
  | _, .inf => .inf
  | .ninf, _ => .ninf
  | _, .ninf => .ninf
  | .num x, .num y => .num (x + y)

/-- `np.mean` over a float list: the sum (starting from `0.0`) divided by the
length; `np.mean([])` is NaN (numpy's `0.0/0` with a warning). -/
def pfMean (l : List PyFloat) : PyFloat :=
  if l.length = 0 then .nan
  else
    match l.foldl pfAdd (.num 0) with
    | .num s => .num (s / l.length)
    | .inf => .inf
    | .ninf => .ninf
    | .nan => .nan

/-- `np.mean` over a list of finite floats, as an exact rational.  Every call
site passes a non-empty list (see the comments there), so the `[] ↦ 0`
degenerate value of rational division is never reached. -/
def meanQ (l : List ℚ) : ℚ := l.sum / l.length

/-! Formula library (`throughput.py`, `latency.py`, `fairness.py`,
`robustness.py`; `metrics.py` contains byte-identical copies) -/

/-- `throughput(num_entangled_states, total_time)` from `throughput.py`. -/
def throughput (num_entangled_states : ℕ) (total_time : ℚ) : ℚ :=
  if total_time ≤ 0 then 0
  else num_entangled_states / total_time

/-- `request_latency(completion_time, request_time)` from `latency.py`. -/
def request_latency (completion_time request_time : ℚ) : ℚ :=
  completion_time - request_time

/-- `unit_latency(total_time, num_units)` from `latency.py`. -/
def unit_latency (total_time : ℚ) (num_units : ℕ) : PyFloat :=
  if num_units ≤ 0 then .inf
  else .num (total_time / num_units)

/-- `scaled_latency(request_latency, num_units)` from `latency.py`. -/
def scaled_latency (req_latency : ℚ) (num_units : ℕ) : PyFloat :=
  if num_units ≤ 0 then .inf
  else .num (req_latency / num_units)

/-- `fairness(values)` from `fairness.py`: Jain's index
`(Σx)² / (n·Σx²)` with the empty list defined as `1.0`.  The division is
numpy float division, so an all-zero input yields `0.0/0.0 = nan`. -/
def fairness (values : List ℚ) : PyFloat :=
  if values.length = 0 then .num 1
  else pyDiv (values.sum ^ 2) (values.length * (values.map (· ^ 2)).sum)

/-- `robustness(metric_baseline, metric_degraded, metric_type)` from
`robustness.py`.  The `raise ValueError` on an unknown metric type is
modelled as `Except.error` with the message text. -/
def robustness (metric_baseline metric_degraded : ℚ) (metric_type : String) :
    Except String PyFloat :=
  if metric_type = "throughput" ∨ metric_type = "fidelity" ∨ metric_type = "fairness" then
    if metric_baseline ≤ 0 then .ok (.num 0)
    else .ok (.num (metric_degraded / metric_baseline))
  else if metric_type = "latency" then
    if metric_degraded ≤ 0 then .ok .inf
    else .ok (.num (metric_baseline / metric_degraded))
  else
    .error ("Unknown metric_type: " ++ metric_type ++
      ". Must be throughput, fidelity, fairness, or latency")

/-! Python dicts as insertion-ordered association lists -/

/-- `d[k]` lookup returning `None` when absent: the first entry with the key. -/
def dlookup {α β : Type} [BEq α] (l : List (α × β)) (k : α) : Option β :=
  (l.find? (fun p => p.1 == k)).map (·.2)

/-- `d[k] = v` assignment: replace in place when the key is present
(keeping dict order), otherwise append at the end. -/
def dinsert {α β : Type} [BEq α] (l : List (α × β)) (k : α) (v : β) :
    List (α × β) :=
  if l.any (fun p => p.1 == k) then
    l.map (fun p => if p.1 == k then (k, v) else p)
  else l ++ [(k, v)]

/-- `del d[k]`. -/
def derase {α β : Type} [BEq α] (l : List (α × β)) (k : α) : List (α × β) :=
  l.filter (fun p => !(p.1 == k))

theorem dlookup_dinsert_self {α β : Type} [BEq α] [LawfulBEq α]
    (l : List (α × β)) (k : α) (v : β) :
    dlookup (dinsert l k v) k = some v := by
  unfold dinsert
  by_cases h : l.any (fun p => p.1 == k)
  · rw [if_pos h]
    induction l with
    | nil => simp at h
    | cons p t ih =>
      by_cases hp : p.1 == k
      · rw [List.map_cons, if_pos hp]
        unfold dlookup
        rw [List.find?_cons_of_pos _ (by simp)]
        rfl
      · have ht : t.any (fun p => p.1 == k) := by
          simpa [List.any_cons, hp] using h
        simpa [dlookup, List.find?, hp] using ih ht
  · rw [if_neg h]
    induction l with
    | nil => simp [dlookup, List.find?]
    | cons p t ih =>
      have hp : ¬ (p.1 == k) := by
        intro hk
        exact h (by simp [List.any_cons, hk])
      have ht : ¬ t.any (fun p => p.1 == k) := by
        intro hk
        exact h (by simp [List.any_cons, hk])
      simpa [dlookup, List.find?, hp] using ih ht

theorem dlookup_derase_self {α β : Type} [BEq α] [LawfulBEq α]
    (l : List (α × β)) (k : α) :
    dlookup (derase l k) k = none := by
  induction l with
  | nil => simp [dlookup, derase]
  | cons p t ih =>
    by_cases hp : p.1 == k
    · rw [show derase (p :: t) k = derase t k by simp [derase, hp]]
      exact ih
    · rw [show derase (p :: t) k = p :: derase t k by simp [derase, hp]]
      simpa [dlookup, List.find?, hp] using ih

/-! The aggregator input and output shapes -/

/-- A completed-request record as consumed by both `aggregate_metrics`
implementations.  `delivered_state` is `some r` when the dict has a
`'delivered_state'` key whose stored array has `r` rows (`len()` of the
averaged density matrix), and `none` when the key is absent. -/
structure ReqRecord where
  request_time : ℚ
  completion_time : ℚ
  num_units : ℕ
  node_id : String
  delivered_state : Option ℕ
deriving DecidableEq, Repr

/-- The `per_node_data[node_id]` accumulator dict created inside the
aggregation loop, with its literal initial values (`first_request_time`
starts at `float('inf')`, `last_completion_time` at `0`). -/
structure NodeData where
  units : ℕ
  latencies : List ℚ
  fidelities : List ℚ
  first_request_time : PyFloat
  last_completion_time : ℚ
deriving DecidableEq, Repr

/-- The local variables accumulated by the per-request loop shared by the
two `aggregate_metrics` implementations (the loop bodies in
`aggregate_metrics.py` and `metrics.py` are byte-identical). -/
structure LoopState where
  latencies : List ℚ
  unit_latencies : List PyFloat
  scaled_latencies : List PyFloat
  per_node_data : List (String × NodeData)
  fidelities : List ℚ
  total_units : ℕ
  fid_idx : ℕ
deriving DecidableEq, Repr

/-- One iteration of the shared per-request loop.  The inner
`for i in range(num_states)` loop that copies `fidelity_values[fid_idx]`
while `fid_idx < len(fidelity_values)` is rendered as the slice
`fidelity_values[fid_idx : fid_idx + num_states]`, where `num_states` is
`len(req.get('delivered_state', []))`. -/
def processReq (fidelity_values : List ℚ) (s : LoopState) (req : ReqRecord) :
    LoopState :=
  let req_latency := request_latency req.completion_time req.request_time
  let num_units := req.num_units
  let unit_lat := unit_latency req_latency num_units
  let scaled_lat := scaled_latency req_latency num_units
  let node_id := req.node_id
  -- `if node_id not in per_node_data:` create the entry with its initial values
  let nd0 : NodeData := (dlookup s.per_node_data node_id).getD
    { units := 0, latencies := [], fidelities := [],
      first_request_time := .inf, last_completion_time := 0 }
  let nd1 : NodeData :=
    { nd0 with
      units := nd0.units + num_units,
      latencies := nd0.latencies ++ [req_latency],
      first_request_time := pyMin nd0.first_request_time req.request_time,
      last_completion_time := max nd0.last_completion_time req.completion_time }
  -- `if fidelity_values and 'delivered_state' in req:` consume samples
  let num_states := req.delivered_state.getD 0
  let chunk : List ℚ :=
    if fidelity_values ≠ [] ∧ req.delivered_state.isSome then
      (fidelity_values.drop s.fid_idx).take num_states
    else []
  let nd2 : NodeData := { nd1 with fidelities := nd1.fidelities ++ chunk }
  { latencies := s.latencies ++ [req_latency],
    unit_latencies := s.unit_latencies ++ [unit_lat],
    scaled_latencies := s.scaled_latencies ++ [scaled_lat],
    per_node_data := dinsert s.per_node_data node_id nd2,
    fidelities := s.fidelities ++ chunk,
    total_units := s.total_units + num_units,
    fid_idx := s.fid_idx + chunk.length }

/-- The whole shared per-request loop, starting from empty accumulators. -/
def runLoop (fidelity_values : List ℚ) (requests : List ReqRecord) : LoopState :=
  requests.foldl (processReq fidelity_values)
    { latencies := [], unit_latencies := [], scaled_latencies := [],
      per_node_data := [], fidelities := [], total_units := 0, fid_idx := 0 }

/-- `node_active_time = last_completion_time - first_request_time` for one
node (float subtraction: the `inf` sentinel would give `-inf`, but the
sentinel is overwritten in the same loop iteration that creates the entry). -/
def node_active_time_of (data : NodeData) : PyFloat :=
  pySubQ data.last_completion_time data.first_request_time

/-- `units / node_active_time * 1e9 if node_active_time > 0 else 0.0`.
A non-finite window never survives to this point (see
`node_active_time_of`); `inf > 0` would give `units/inf*1e9 = 0.0`. -/
def node_throughput_of (data : NodeData) : ℚ :=
  match node_active_time_of data with
  | .num t => if 0 < t then (data.units : ℚ) / t * 1000000000 else 0
  | .inf => 0
  | .ninf => 0
  | .nan => 0

/-- `np.mean(data['latencies'])`; every node entry holds at least one
latency (one is appended in the iteration that creates the entry). -/
def node_avg_latency_of (data : NodeData) : ℚ := meanQ data.latencies

/-- One entry of the `per_node_metrics` dict.  `avg_latency` and
`active_time` are `none` when the key is absent (the `aggregate_metrics.py`
version omits them); `avg_fidelity` is present only when the node collected
fidelity samples. -/
structure NodeMetrics where
  throughput : ℚ
  avg_latency : Option ℚ := none
  total_units : ℕ
  active_time : Option PyFloat := none
  avg_fidelity : Option ℚ := none
deriving DecidableEq, Repr

/-- The result dict of an aggregation (and of
`MetricsCollector.calculate_metrics`): one `Option` field per key that can
occur, `none` meaning the key is absent. -/
structure Snapshot where
  throughput : Option ℚ := none
  mean_request_latency : Option ℚ := none
  mean_unit_latency : Option PyFloat := none
  mean_scaled_latency : Option PyFloat := none
  fairness_throughput : Option PyFloat := none
  fairness_latency : Option PyFloat := none
  mean_fidelity : Option ℚ := none
  fairness_fidelity : Option PyFloat := none
  per_node_metrics : Option (List (String × NodeMetrics)) := none
  rejected_states : Option ℕ := none
  total_units : Option ℕ := none
  avg_fidelity : Option ℚ := none
  simulation_time : Option ℚ := none
  start_time : Option ℚ := none
  end_time : Option ℚ := none
  total_requests : Option ℕ := none
deriving DecidableEq, Repr

/-- The dict returned by both implementations when `requests` is empty. -/
def emptySnapshot : Snapshot :=
  { throughput := some 0,
    mean_request_latency := some 0,
    mean_unit_latency := some (.num 0),
    mean_scaled_latency := some (.num 0),
    fairness_throughput := some (.num 1),
    fairness_latency := some (.num 1) }

/-- `aggregate_metrics` from `src/metrics/aggregate_metrics.py` — the
implementation that `MetricsCollector` imports.  After the shared loop it
builds `per_node_metrics` entries containing only `throughput`,
`total_units` and (when sampled) `avg_fidelity`, and its final dict splices
`**per_node_metrics[node_id]` for the *last* iterated node instead of
returning the global throughput, the fairness indices, or the
`per_node_metrics` map.  `simulation_time` is never read. -/
def aggregate_metrics (requests : List ReqRecord) (simulation_time : ℚ)
    (fidelity_values : List ℚ) (rejected_states : ℕ) : Snapshot :=
  if requests = [] then emptySnapshot
  else
    let s := runLoop fidelity_values requests
    match s.per_node_data.getLast? with
    | none => emptySnapshot
      -- unreachable: a non-empty `requests` always inserts a node entry;
      -- in Python `node_id` would still be `None` and
      -- `per_node_metrics[node_id]` would raise `KeyError`
    | some (_, data) =>
      { mean_request_latency := some (meanQ s.latencies),
        mean_unit_latency := some (pfMean s.unit_latencies),
        mean_scaled_latency := some (pfMean s.scaled_latencies),
        rejected_states := some rejected_states,
        -- `**per_node_metrics[node_id]`, the last node's entry:
        throughput := some (node_throughput_of data),
        total_units := some data.units,
        avg_fidelity :=
          if data.fidelities ≠ [] then some (meanQ data.fidelities) else none,
        mean_fidelity :=
          if s.fidelities ≠ [] then some (meanQ s.fidelities) else none }

namespace MetricsPy

/-- `aggregate_metrics` from `src/metrics/metrics.py` (the full version:
global throughput, per-node fairness indices, complete `per_node_metrics`
map). -/
def aggregate_metrics (requests : List ReqRecord) (simulation_time : ℚ)
    (fidelity_values : List ℚ) (rejected_states : ℕ) : Snapshot :=
  if requests = [] then emptySnapshot
  else
    let s := runLoop fidelity_values requests
    let per_node_throughputs := s.per_node_data.map (fun p => node_throughput_of p.2)
    let per_node_latencies := s.per_node_data.map (fun p => node_avg_latency_of p.2)
    let per_node_fidelities :=
      (s.per_node_data.filter (fun p => !p.2.fidelities.isEmpty)).map
        (fun p => meanQ p.2.fidelities)
    let per_node_metrics : List (String × NodeMetrics) :=
      s.per_node_data.map (fun p =>
        (p.1,
         { throughput := node_throughput_of p.2,
           avg_latency := some (node_avg_latency_of p.2),
           total_units := p.2.units,
           active_time := some (node_active_time_of p.2),
           avg_fidelity :=
             if p.2.fidelities ≠ [] then some (meanQ p.2.fidelities) else none }))
    { throughput := some (throughput s.total_units simulation_time),
      mean_request_latency := some (meanQ s.latencies),
      mean_unit_latency := some (pfMean s.unit_latencies),
      mean_scaled_latency := some (pfMean s.scaled_latencies),
      fairness_throughput := some (fairness per_node_throughputs),
      fairness_latency := some (fairness per_node_latencies),
      per_node_metrics := some per_node_metrics,
      rejected_states := some rejected_states,
      mean_fidelity :=
        if s.fidelities ≠ [] then some (meanQ s.fidelities) else none,
      fairness_fidelity :=
        if s.fidelities ≠ [] ∧ per_node_fidelities ≠ [] then
          some (fairness per_node_fidelities)
        else none }

end MetricsPy

/-! The request ledger (`metrics_collector.py`) -/

/-- An entry of `MetricsCollector._active_requests`, mirroring the dict
created by `record_request`.  A delivered state is kept as the row count of
its density matrix (the only thing the metrics code ever extracts from it). -/
structure ActiveRequest where
  request_id : ℕ
  num_units : ℕ
  node_id : String
  request_time : ℚ
  completion_time : Option ℚ
  delivered_states : List ℕ
  completed_units : ℕ
deriving DecidableEq, Repr

/-- A record in `MetricsCollector.requests` after `_finalize_request`:
`delivered_states` has been deleted and replaced (when non-empty) by the
`'delivered_state'` key holding `np.mean(delivered_states, axis=0)`, an
array with the same row count as each delivered state. -/
structure CompletedRequest where
  request_id : ℕ
  num_units : ℕ
  node_id : String
  request_time : ℚ
  completion_time : Option ℚ
  completed_units : ℕ
  delivered_state : Option ℕ
deriving DecidableEq, Repr

/-- The `MetricsCollector` state; the field defaults are the `__init__`
values (with `fidelity_threshold` itself defaulting to `0.0`). -/
structure MetricsCollector where
  requests : List CompletedRequest := []
  start_time : ℚ := 0
  end_time : ℚ := 0
  fidelity_threshold : ℚ := 0
  active_requests : List (ℕ × ActiveRequest) := []
  rejected_states : ℕ := 0
  fidelity_values : List ℚ := []
deriving DecidableEq, Repr

/-- `MetricsCollector(fidelity_threshold)`. -/
def MetricsCollector.init (fidelity_threshold : ℚ) : MetricsCollector :=
  { fidelity_threshold := fidelity_threshold }

/-- What `record_delivery` observes of one delivery event, abstracting the
external NetSquid calls:
* `noQubits` — `qubits` is `None` or the empty list;
* `stateFail` — one of the four `qapi.fidelity` calls raises (caught by the
  `except` clause, which logs a warning and falls through);
* `state max_fid dm_rows` — the best-match Bell fidelity is `max_fid` and
  `qubits[0].qstate.dm` is an array with `dm_rows` rows;
* `stateDmFail max_fid` — the fidelity computation succeeds but reading
  `qubits[0].qstate.dm` raises, after the sample was already appended. -/
inductive DeliveryOutcome where
  | noQubits
  | stateFail
  | state (max_fid : ℚ) (dm_rows : ℕ)
  | stateDmFail (max_fid : ℚ)
deriving DecidableEq, Repr

/-- `MetricsCollector.record_request`.  The simulation clock read
`ns.sim_time()` is passed explicitly as `now`.  Note the unconditional dict
assignment: an already-active `request_id` is silently overwritten with a
fresh record. -/
def record_request (c : MetricsCollector) (request_id : ℕ) (num_units : ℕ)
    (node_id : String) (now : ℚ) : MetricsCollector :=
  { c with
    active_requests := dinsert c.active_requests request_id
      { request_id := request_id, num_units := num_units, node_id := node_id,
        request_time := now, completion_time := none,
        delivered_states := [], completed_units := 0 } }

/-- `MetricsCollector._finalize_request`: move the request from the active
dict to the completed list, replacing `delivered_states` by the averaged
`delivered_state` (present only when at least one state was stored; the
average of equally-shaped arrays keeps their row count, recorded here from
the first stored state). -/
def _finalize_request (c : MetricsCollector) (request_id : ℕ) : MetricsCollector :=
  match dlookup c.active_requests request_id with
  | none => c
  | some req =>
    let completedReq : CompletedRequest :=
      { request_id := req.request_id, num_units := req.num_units,
        node_id := req.node_id, request_time := req.request_time,
        completion_time := req.completion_time,
        completed_units := req.completed_units,
        delivered_state := req.delivered_states.head? }
    { c with
      requests := c.requests ++ [completedReq],
      active_requests := derase c.active_requests request_id }

/-- `MetricsCollector.record_delivery`.  The `qubit_id` argument is never
read by the source and is omitted.  `completed_units` is incremented
*before* the `try` block; the threshold-rejection branch decrements it back
and returns early (skipping the completion check), while the exception
branches fall through to the completion check with the increment kept. -/
def record_delivery (c : MetricsCollector) (request_id : ℕ)
    (outcome : DeliveryOutcome) (now : ℚ) : MetricsCollector :=
  match dlookup c.active_requests request_id with
  | none => c
  | some req =>
    let req1 := { req with completed_units := req.completed_units + 1 }
    -- the `if qubits is not None and len(qubits) > 0: try ... except` block;
    -- `none` encodes the early `return` of the threshold rejection
    let step : Option (MetricsCollector × ActiveRequest) :=
      match outcome with
      | .noQubits => some (c, req1)
      | .stateFail => some (c, req1)
      | .state max_fid dm_rows =>
        if 0 < c.fidelity_threshold ∧ max_fid < c.fidelity_threshold then none
        else
          some ({ c with fidelity_values := c.fidelity_values ++ [max_fid] },
                { req1 with delivered_states := req1.delivered_states ++ [dm_rows] })
      | .stateDmFail max_fid =>
        if 0 < c.fidelity_threshold ∧ max_fid < c.fidelity_threshold then none
        else
          some ({ c with fidelity_values := c.fidelity_values ++ [max_fid] }, req1)
    match step with
    | none =>
      { c with
        rejected_states := c.rejected_states + 1,
        active_requests := dinsert c.active_requests request_id
          { req1 with completed_units := req1.completed_units - 1 } }
    | some (c1, req2) =>
      if req2.num_units ≤ req2.completed_units then
        let reqDone := { req2 with completion_time := some now }
        _finalize_request
          { c1 with active_requests := dinsert c1.active_requests request_id reqDone }
          request_id
      else
        { c1 with active_requests := dinsert c1.active_requests request_id req2 }

/-- View a completed-request dict as an aggregator input record.
`completion_time` is always stamped before finalization, so the `getD 0`
default is never read (a `None` would be a `TypeError` in the source). -/
def CompletedRequest.asRecord (r : CompletedRequest) : ReqRecord :=
  { request_time := r.request_time,
    completion_time := r.completion_time.getD 0,
    num_units := r.num_units,
    node_id := r.node_id,
    delivered_state := r.delivered_state }

/-- `MetricsCollector.calculate_metrics`: when the end of the simulation was
never marked, `end_simulation()` stamps the current clock (`now`); then the
imported `aggregate_metrics` runs and the timing keys are added. -/
def calculate_metrics (c : MetricsCollector) (now : ℚ) : Snapshot :=
  let end_time := if c.end_time = 0 then now else c.end_time
  let simulation_time := end_time - c.start_time
  let m := aggregate_metrics (c.requests.map CompletedRequest.asRecord)
    simulation_time c.fidelity_values c.rejected_states
  { m with
    simulation_time := some simulation_time,
    start_time := some c.start_time,
    end_time := some end_time,
    total_requests := some c.requests.length }

/-- Folding a sequence of deliveries for one request over the collector. -/
def deliverAll (c : MetricsCollector) (request_id : ℕ)
    (evs : List (DeliveryOutcome × ℚ)) : MetricsCollector :=
  evs.foldl (fun a e => record_delivery a request_id e.1 e.2) c

/-- A delivery event carrying a state that passes the threshold check
(an *accepted* delivery). -/
def AcceptedOutcome (threshold : ℚ) (o : DeliveryOutcome) : Prop :=
  ∃ max_fid dm_rows, o = .state max_fid dm_rows ∧
    ¬(0 < threshold ∧ max_fid < threshold)

/-! Helper lemmas about `record_delivery` -/

theorem record_delivery_not_active (c : MetricsCollector) (request_id : ℕ)
    (outcome : DeliveryOutcome) (now : ℚ)
    (h : dlookup c.active_requests request_id = none) :
    record_delivery c request_id outcome now = c := by
  unfold record_delivery
  rw [h]

/-- An accepted delivery that leaves the request strictly below its quota:
the active record gains one unit and one stored state, the sample is
appended, and nothing else changes. -/
theorem record_delivery_state_step (c : MetricsCollector) (request_id : ℕ)
    (req : ActiveRequest) (max_fid : ℚ) (dm_rows : ℕ) (now : ℚ)
    (h : dlookup c.active_requests request_id = some req)
    (hacc : ¬(0 < c.fidelity_threshold ∧ max_fid < c.fidelity_threshold))
    (hlt : req.completed_units + 1 < req.num_units) :
    record_delivery c request_id (.state max_fid dm_rows) now =
      { c with
        fidelity_values := c.fidelity_values ++ [max_fid],
        active_requests := dinsert c.active_requests request_id
          { req with completed_units := req.completed_units + 1,
                     delivered_states := req.delivered_states ++ [dm_rows] } } := by
  unfold record_delivery
  rw [h]
  simp only [if_neg hacc]
  rw [if_neg (Nat.not_le.mpr hlt)]

/-- An accepted delivery that meets the quota: the request is stamped,
finalized into the completed list and removed from the active dict. -/
theorem record_delivery_state_finish (c : MetricsCollector) (request_id : ℕ)
    (req : ActiveRequest) (max_fid : ℚ) (dm_rows : ℕ) (now : ℚ)
    (h : dlookup c.active_requests request_id = some req)
    (hacc : ¬(0 < c.fidelity_threshold ∧ max_fid < c.fidelity_threshold))
    (hge : req.num_units ≤ req.completed_units + 1) :
    record_delivery c request_id (.state max_fid dm_rows) now =
      { c with
        fidelity_values := c.fidelity_values ++ [max_fid],
        requests := c.requests ++ [{
          request_id := req.request_id, num_units := req.num_units,
          node_id := req.node_id, request_time := req.request_time,
          completion_time := some now,
          completed_units := req.completed_units + 1,
          delivered_state := (req.delivered_states ++ [dm_rows]).head? }],
        active_requests := derase (dinsert c.active_requests request_id
          { req with completed_units := req.completed_units + 1,
                     delivered_states := req.delivered_states ++ [dm_rows],
                     completion_time := some now }) request_id } := by
  unfold record_delivery
  rw [h]
  simp only [if_neg hacc]
  rw [if_pos hge]
  unfold _finalize_request
  rw [dlookup_dinsert_self]

/-- Folding accepted deliveries that stay strictly below the quota keeps the
request active, advancing only its unit count and its stored states, and
leaves the completed list and the threshold untouched. -/
theorem deliverAll_below (request_id : ℕ) (evs : List (DeliveryOutcome × ℚ)) :
    ∀ (c : MetricsCollector) (req : ActiveRequest),
      dlookup c.active_requests request_id = some req →
      (∀ e ∈ evs, AcceptedOutcome c.fidelity_threshold e.1) →
      req.completed_units + evs.length < req.num_units →
      ∃ ds : List ℕ,
        dlookup (deliverAll c request_id evs).active_requests request_id =
          some { req with completed_units := req.completed_units + evs.length,
                          delivered_states := ds } ∧
        (deliverAll c request_id evs).requests = c.requests ∧
        (deliverAll c request_id evs).fidelity_threshold = c.fidelity_threshold := by
  induction evs with
  | nil =>
    intro c req h _ _
    exact ⟨req.delivered_states, h, rfl, rfl⟩
  | cons e t ih =>
    intro c req h hacc hlt
    obtain ⟨fid, rows, he, hpass⟩ := hacc e (List.mem_cons_self e t)
    have hlen : req.completed_units + (t.length + 1) < req.num_units := by
      simpa using hlt
    have hlt1 : req.completed_units + 1 < req.num_units := by omega
    have hstep := record_delivery_state_step c request_id req fid rows e.2 h hpass hlt1
    have hda : deliverAll c request_id (e :: t) =
        deliverAll (record_delivery c request_id e.1 e.2) request_id t := rfl
    rw [he, hstep] at hda
    obtain ⟨ds, h1, h2, h3⟩ :=
      ih ({ c with
              fidelity_values := c.fidelity_values ++ [fid],
              active_requests := dinsert c.active_requests request_id
                { req with completed_units := req.completed_units + 1,
                           delivered_states := req.delivered_states ++ [rows] } })
        { req with completed_units := req.completed_units + 1,
                   delivered_states := req.delivered_states ++ [rows] }
        (dlookup_dinsert_self _ _ _)
        (fun e' he' => hacc e' (List.mem_cons_of_mem _ he'))
        (by
          show req.completed_units + 1 + t.length < req.num_units
          omega)
    refine ⟨ds, ?_, ?_, ?_⟩
    · have hc : req.completed_units + (e :: t).length =
          req.completed_units + 1 + t.length := by
        simp
        omega
      rw [hda, hc]
      exact h1
    · rw [hda, h2]
    · rw [hda, h3]

/-! Helper lemmas about the aggregation loop -/

theorem dinsert_ne_nil {α β : Type} [BEq α] (l : List (α × β)) (k : α) (v : β) :
    dinsert l k v ≠ [] := by
  unfold dinsert
  split
  · intro hnil
    rcases l with _ | ⟨p, t⟩
    · simp at *
    · simp at hnil
  · simp

theorem runLoop_per_node_ne_nil (fidelity_values : List ℚ)
    (requests : List ReqRecord) (h : requests ≠ []) :
    (runLoop fidelity_values requests).per_node_data ≠ [] := by
  rcases List.eq_nil_or_concat requests with rfl | ⟨L, b, rfl⟩
  · exact absurd rfl h
  · have hsplit : runLoop fidelity_values (L.concat b) =
        processReq fidelity_values (runLoop fidelity_values L) b := by
      simp [runLoop, List.concat_eq_append, List.foldl_append]
    rw [hsplit]
    exact dinsert_ne_nil _ _ _

/-! Claims -/

/-- C7: for every collector state and every `request_id` that is not in the
active set, `record_delivery` is a no-op — the entire collector state is
returned unchanged (and no error is raised: the function is total). -/
theorem C7_record_delivery_unknown_id_noop (c : MetricsCollector)
    (request_id : ℕ) (outcome : DeliveryOutcome) (now : ℚ)
    (h : dlookup c.active_requests request_id = none) :
    record_delivery c request_id outcome now = c :=
  record_delivery_not_active c request_id outcome now h

theorem C7_witness :
    dlookup (MetricsCollector.init 0).active_requests 5 = none ∧
    record_delivery (MetricsCollector.init 0) 5 .noQubits 3 = MetricsCollector.init 0 :=
  ⟨rfl, C7_record_delivery_unknown_id_noop (MetricsCollector.init 0) 5 .noQubits 3 rfl⟩

/-- C3: with a configured threshold (`fidelity_threshold > 0`), a delivery
whose best-match fidelity falls below it increments `rejected_states` by
exactly one, leaves the active record (in particular `completed_units`)
unchanged, records no fidelity sample, and does not finalize the request. -/
theorem C3_threshold_rejection (c : MetricsCollector) (request_id : ℕ)
    (req : ActiveRequest) (max_fid : ℚ) (dm_rows : ℕ) (now : ℚ)
    (h : dlookup c.active_requests request_id = some req)
    (hth : 0 < c.fidelity_threshold)
    (hlow : max_fid < c.fidelity_threshold) :
    (record_delivery c request_id (.state max_fid dm_rows) now).rejected_states =
      c.rejected_states + 1 ∧
    dlookup (record_delivery c request_id (.state max_fid dm_rows) now).active_requests
      request_id = some req ∧
    (record_delivery c request_id (.state max_fid dm_rows) now).fidelity_values =
      c.fidelity_values ∧
    (record_delivery c request_id (.state max_fid dm_rows) now).requests = c.requests := by
  have hred : record_delivery c request_id (.state max_fid dm_rows) now =
      { c with rejected_states := c.rejected_states + 1,
               active_requests := dinsert c.active_requests request_id req } := by
    unfold record_delivery
    rw [h]
    simp only [if_pos (And.intro hth hlow)]
    have h1 : req.completed_units + 1 - 1 = req.completed_units := by omega
    rw [h1]
  exact ⟨by rw [hred], by rw [hred]; exact dlookup_dinsert_self _ _ _,
    by rw [hred], by rw [hred]⟩

theorem C3_witness :
    (record_delivery (record_request (MetricsCollector.init (1/2)) 1 3 "A" 0) 1
        (.state (3/10) 4) 7).rejected_states =
      (record_request (MetricsCollector.init (1/2)) 1 3 "A" 0).rejected_states + 1 ∧
    dlookup (record_delivery (record_request (MetricsCollector.init (1/2)) 1 3 "A" 0) 1
        (.state (3/10) 4) 7).active_requests 1 =
      some { request_id := 1, num_units := 3, node_id := "A", request_time := 0,
             completion_time := none, delivered_states := [], completed_units := 0 } := by
  have H := C3_threshold_rejection (record_request (MetricsCollector.init (1/2)) 1 3 "A" 0)
    1 { request_id := 1, num_units := 3, node_id := "A", request_time := 0,
        completion_time := none, delivered_states := [], completed_units := 0 }
    (3/10) 4 7 (by decide)
    (by simp only [record_request, MetricsCollector.init]; norm_num)
    (by simp only [record_request, MetricsCollector.init]; norm_num)
  exact ⟨H.1, H.2.1⟩

/-- C2 (counterexample to the frozen claim): a delivery whose fidelity
computation throws does *not* leave `completed_units` unchanged — the unit
was already counted before the `try` block, so it goes from 0 to 1. -/
theorem C2_counterexample :
    (dlookup (record_delivery (record_request (MetricsCollector.init 0) 1 2 "A" 0)
        1 .stateFail 5).active_requests 1).map ActiveRequest.completed_units = some 1 ∧
    (dlookup (record_request (MetricsCollector.init 0) 1 2 "A" 0).active_requests 1).map
        ActiveRequest.completed_units = some 0 := by decide

/-- C2 (amended): on a fidelity-computation failure no sample is recorded
and `rejected_states` is unchanged, but the unit attempt still counts:
`completed_units` is incremented, and the request is even finalized when
this meets its quota. -/
theorem C2_state_unavailable_still_counts (c : MetricsCollector)
    (request_id : ℕ) (req : ActiveRequest) (now : ℚ)
    (h : dlookup c.active_requests request_id = some req) :
    (record_delivery c request_id .stateFail now).fidelity_values = c.fidelity_values ∧
    (record_delivery c request_id .stateFail now).rejected_states = c.rejected_states ∧
    (req.completed_units + 1 < req.num_units →
      dlookup (record_delivery c request_id .stateFail now).active_requests request_id =
        some { req with completed_units := req.completed_units + 1 } ∧
      (record_delivery c request_id .stateFail now).requests = c.requests) ∧
    (req.num_units ≤ req.completed_units + 1 →
      dlookup (record_delivery c request_id .stateFail now).active_requests request_id =
        none ∧
      (record_delivery c request_id .stateFail now).requests = c.requests ++
        [{ request_id := req.request_id, num_units := req.num_units,
           node_id := req.node_id, request_time := req.request_time,
           completion_time := some now, completed_units := req.completed_units + 1,
           delivered_state := req.delivered_states.head? }]) := by
  by_cases hq : req.num_units ≤ req.completed_units + 1
  · have hred : record_delivery c request_id .stateFail now =
        { c with
          requests := c.requests ++
            [{ request_id := req.request_id, num_units := req.num_units,
               node_id := req.node_id, request_time := req.request_time,
               completion_time := some now, completed_units := req.completed_units + 1,
               delivered_state := req.delivered_states.head? }],
          active_requests := derase (dinsert c.active_requests request_id
            { req with completed_units := req.completed_units + 1,
                       completion_time := some now }) request_id } := by
      unfold record_delivery
      rw [h]
      simp only [if_pos hq]
      unfold _finalize_request
      rw [dlookup_dinsert_self]
    refine ⟨by rw [hred], by rw [hred],
      fun hlt => absurd hq (Nat.not_le.mpr hlt),
      fun _ => ⟨by rw [hred]; exact dlookup_derase_self _ _, by rw [hred]⟩⟩
  · have hred : record_delivery c request_id .stateFail now =
        { c with
          active_requests := dinsert c.active_requests request_id
            ({ req with completed_units := req.completed_units + 1 }) } := by
      unfold record_delivery
      rw [h]
      simp only [if_neg hq]
    refine ⟨by rw [hred], by rw [hred],
      fun _ => ⟨by rw [hred]; exact dlookup_dinsert_self _ _ _, by rw [hred]⟩,
      fun hge => absurd hge hq⟩

theorem C2_witness :
    (record_delivery (record_request (MetricsCollector.init 0) 1 2 "A" 0) 1
        .stateFail 5).fidelity_values =
      (record_request (MetricsCollector.init 0) 1 2 "A" 0).fidelity_values ∧
    dlookup (record_delivery (record_request (MetricsCollector.init 0) 1 2 "A" 0) 1
        .stateFail 5).active_requests 1 =
      some { request_id := 1, num_units := 2, node_id := "A", request_time := 0,
             completion_time := none, delivered_states := [], completed_units := 1 } := by
  have H := C2_state_unavailable_still_counts
    (record_request (MetricsCollector.init 0) 1 2 "A" 0) 1
    { request_id := 1, num_units := 2, node_id := "A", request_time := 0,
      completion_time := none, delivered_states := [], completed_units := 0 }
    5 (by decide)
  exact ⟨H.1, (H.2.2.1 (by decide)).1⟩

/-- C5 (counterexample to the frozen claim): re-registering an active id
does not fail — it silently replaces the record.  After one accepted
delivery on request 1 (`completed_units = 1`), a second `record_request`
for id 1 resets it to a fresh record with `completed_units = 0`. -/
theorem C5_counterexample :
    (dlookup (record_delivery (record_request (MetricsCollector.init 0) 1 2 "A" 0) 1
        (.state (9/10) 4) 3).active_requests 1).map ActiveRequest.completed_units =
      some 1 ∧
    dlookup (record_request (record_delivery
        (record_request (MetricsCollector.init 0) 1 2 "A" 0) 1
        (.state (9/10) 4) 3) 1 5 "B" 4).active_requests 1 =
      some { request_id := 1, num_units := 5, node_id := "B", request_time := 4,
             completion_time := none, delivered_states := [], completed_units := 0 } := by
  decide

/-- C5 (amended): `record_request` never reports an error; whether or not
the id is already active, it installs a fresh record (quota reset,
`completed_units = 0`) under that id, touching nothing else. -/
theorem C5_record_request_overwrites (c : MetricsCollector)
    (request_id num_units : ℕ) (node_id : String) (now : ℚ) :
    dlookup (record_request c request_id num_units node_id now).active_requests
      request_id =
      some { request_id := request_id, num_units := num_units, node_id := node_id,
             request_time := now, completion_time := none,
             delivered_states := [], completed_units := 0 } ∧
    (record_request c request_id num_units node_id now).requests = c.requests ∧
    (record_request c request_id num_units node_id now).rejected_states =
      c.rejected_states ∧
    (record_request c request_id num_units node_id now).fidelity_values =
      c.fidelity_values :=
  ⟨dlookup_dinsert_self _ _ _, rfl, rfl, rfl⟩

/-- C6: a request registered with quota `n ≥ 1` that receives `n` accepted
deliveries (in any order — the fold below takes an arbitrary list of
accepted events) transitions from active to completed exactly once: after
the `n`-th accepted delivery it is gone from the active set, appears in the
completed list exactly once with its `completion_time` stamped with the
last delivery's clock, and any further delivery to the same id is a no-op,
so finalization cannot re-trigger. -/
theorem C6_finalization_exactly_once (c : MetricsCollector) (request_id : ℕ)
    (req : ActiveRequest) (n : ℕ) (evs : List (DeliveryOutcome × ℚ))
    (hreq : dlookup c.active_requests request_id = some req)
    (hid : req.request_id = request_id)
    (hcu : req.completed_units = 0)
    (hnu : req.num_units = n)
    (hn : 1 ≤ n)
    (hlen : evs.length = n)
    (hacc : ∀ e ∈ evs, AcceptedOutcome c.fidelity_threshold e.1)
    (hcount : c.requests.countP (fun r => r.request_id == request_id) = 0) :
    dlookup (deliverAll c request_id evs).active_requests request_id = none ∧
    (deliverAll c request_id evs).requests.countP
      (fun r => r.request_id == request_id) = 1 ∧
    (∃ r, (deliverAll c request_id evs).requests = c.requests ++ [r] ∧
      r.request_id = request_id ∧
      r.completion_time = evs.getLast?.map Prod.snd) ∧
    (∀ outcome now,
      record_delivery (deliverAll c request_id evs) request_id outcome now =
        deliverAll c request_id evs) := by
  rcases List.eq_nil_or_concat evs with rfl | ⟨L, b, rfl⟩
  · simp at hlen
    omega
  · have hL : L.length + 1 = n := by simpa using hlen
    obtain ⟨ds, h1, h2, h3⟩ := deliverAll_below request_id L c req hreq
      (fun e he => hacc e (by simp [List.concat_eq_append, he]))
      (by omega)
    have hsplit : deliverAll c request_id (L.concat b) =
        record_delivery (deliverAll c request_id L) request_id b.1 b.2 := by
      simp [deliverAll, List.concat_eq_append, List.foldl_append]
    obtain ⟨fid, rows, hb, hpass⟩ :=
      hacc b (by simp [List.concat_eq_append])
    have hpassL : ¬(0 < (deliverAll c request_id L).fidelity_threshold ∧
        fid < (deliverAll c request_id L).fidelity_threshold) := by
      rw [h3]
      exact hpass
    have hfin := record_delivery_state_finish (deliverAll c request_id L) request_id
      _ fid rows b.2 h1 hpassL
      (by
        show req.num_units ≤ req.completed_units + L.length + 1
        omega)
    rw [hb] at hsplit
    rw [hfin] at hsplit
    refine ⟨?_, ?_, ?_, ?_⟩
    · rw [hsplit]
      exact dlookup_derase_self _ _
    · rw [hsplit]
      simp only [List.countP_append, h2]
      rw [hcount]
      simp [hid]
    · refine ⟨{ request_id := req.request_id, num_units := req.num_units,
                node_id := req.node_id, request_time := req.request_time,
                completion_time := some b.2,
                completed_units := req.completed_units + L.length + 1,
                delivered_state := (ds ++ [rows]).head? }, ?_, ?_, ?_⟩
      · rw [hsplit, h2]
      · exact hid
      · simp [List.getLast?_concat]
    · intro outcome now
      apply record_delivery_not_active
      rw [hsplit]
      exact dlookup_derase_self _ _

theorem C6_witness :
    dlookup (deliverAll (record_request (MetricsCollector.init 0) 1 3 "A" 0) 1
      [(.state (9/10) 4, 1), (.state (8/10) 4, 2), (.state (7/10) 4, 3)]).active_requests
      1 = none ∧
    (deliverAll (record_request (MetricsCollector.init 0) 1 3 "A" 0) 1
      [(.state (9/10) 4, 1), (.state (8/10) 4, 2), (.state (7/10) 4, 3)]).requests.countP
      (fun r => r.request_id == 1) = 1 := by
  have H := C6_finalization_exactly_once
    (record_request (MetricsCollector.init 0) 1 3 "A" 0) 1
    { request_id := 1, num_units := 3, node_id := "A", request_time := 0,
      completion_time := none, delivered_states := [], completed_units := 0 }
    3 [(.state (9/10) 4, 1), (.state (8/10) 4, 2), (.state (7/10) 4, 3)]
    (by decide) rfl rfl rfl (by decide) (by decide)
    (by
      intro e he
      simp only [List.mem_cons, List.not_mem_nil, or_false] at he
      rcases he with rfl | rfl | rfl
      · exact ⟨9/10, 4, rfl, by
          simp only [record_request, MetricsCollector.init]
          norm_num⟩
      · exact ⟨8/10, 4, rfl, by
          simp only [record_request, MetricsCollector.init]
          norm_num⟩
      · exact ⟨7/10, 4, rfl, by
          simp only [record_request, MetricsCollector.init]
          norm_num⟩)
    (by decide)
  exact ⟨H.1, H.2.1⟩

/-- C9: for the higher-is-better polarities (`throughput`, `fidelity`,
`fairness`) the robustness ratio is `degraded / baseline` with `0.0`
whenever `baseline ≤ 0`; for the lower-is-better polarity (`latency`) it is
`baseline / degraded` with `+∞` whenever `degraded ≤ 0`; every other
polarity string produces a typed error (`ValueError`), and no other input
raises: the known polarities always return a value. -/
theorem C9_robustness_spec (metric_baseline metric_degraded : ℚ) :
    (∀ metric_type,
      (metric_type = "throughput" ∨ metric_type = "fidelity" ∨
        metric_type = "fairness") →
      robustness metric_baseline metric_degraded metric_type =
        .ok (if metric_baseline ≤ 0 then .num 0
             else .num (metric_degraded / metric_baseline))) ∧
    (robustness metric_baseline metric_degraded ("latency") =
      .ok (if metric_degraded ≤ 0 then .inf
           else .num (metric_baseline / metric_degraded))) ∧
    (∀ metric_type, metric_type ≠ "throughput" → metric_type ≠ "fidelity" →
      metric_type ≠ "fairness" → metric_type ≠ "latency" →
      ∃ msg, robustness metric_baseline metric_degraded metric_type =
        .error msg) := by
  refine ⟨?_, ?_, ?_⟩
  · intro metric_type hty
    unfold robustness
    rw [if_pos hty]
    by_cases hb : metric_baseline ≤ 0
    · rw [if_pos hb, if_pos hb]
    · rw [if_neg hb, if_neg hb]
  · unfold robustness
    rw [if_neg (by decide), if_pos rfl]
    by_cases hd : metric_degraded ≤ 0
    · rw [if_pos hd, if_pos hd]
    · rw [if_neg hd, if_neg hd]
  · intro metric_type h1 h2 h3 h4
    refine ⟨"Unknown metric_type: " ++ metric_type ++
      ". Must be throughput, fidelity, fairness, or latency", ?_⟩
    unfold robustness
    rw [if_neg (by tauto), if_neg h4]

theorem C9_witness :
    robustness 4 2 "throughput" = .ok (.num (2 / 4)) ∧
    robustness 4 2 "latency" = .ok (.num (4 / 2)) ∧
    (∃ msg, robustness 4 2 "bogus" = .error msg) := by
  have H := C9_robustness_spec 4 2
  refine ⟨?_, ?_, H.2.2 ("bogus") (by decide) (by decide) (by decide) (by decide)⟩
  · rw [H.1 ("throughput") (Or.inl rfl)]
    norm_num
  · rw [H.2.1]
    norm_num

/-- C10 (counterexample to the frozen claim): one copy of the value `0` —
the sums are both zero, so the numpy division is `0.0/0.0`, which is NaN,
not `1.0`. -/
theorem C10_counterexample :
    fairness (List.replicate 1 (0 : ℚ)) = .nan ∧ PyFloat.nan ≠ .num 1 := by
  constructor
  · norm_num [fairness, pyDiv]
  · decide

/-- C10 (amended): Jain fairness of `n` equal values `x` is `1.0` for the
empty list (`n = 0`) and whenever `x ≠ 0`; the remaining case (`n ≥ 1`
copies of `0`) yields NaN, as the counterexample shows. -/
theorem C10_fairness_equal_values (n : ℕ) (x : ℚ) (h : x ≠ 0 ∨ n = 0) :
    fairness (List.replicate n x) = .num 1 := by
  rcases h with hx | hn
  · rcases Nat.eq_zero_or_pos n with hn | hn
    · subst hn
      rfl
    · unfold fairness
      rw [if_neg (by simp; omega)]
      have hsum : (List.replicate n x).sum = (n : ℚ) * x := by
        simp [List.sum_replicate, nsmul_eq_mul]
      have hsq : ((List.replicate n x).map (· ^ 2)).sum = (n : ℚ) * x ^ 2 := by
        simp [List.map_replicate, List.sum_replicate, nsmul_eq_mul]
      rw [hsum, hsq, List.length_replicate]
      unfold pyDiv
      have hnq : (n : ℚ) ≠ 0 := by
        exact_mod_cast Nat.pos_iff_ne_zero.mp hn
      rw [if_neg (by positivity)]
      have : ((n : ℚ) * x) ^ 2 / ((n : ℚ) * ((n : ℚ) * x ^ 2)) = 1 := by
        field_simp
        ring
      rw [this]
  · subst hn
    rfl

theorem C10_witness :
    ((2 : ℚ) ≠ 0 ∨ 3 = 0) ∧ fairness (List.replicate 3 (2 : ℚ)) = .num 1 :=
  ⟨Or.inl (by norm_num), C10_fairness_equal_values 3 2 (Or.inl (by norm_num))⟩

/-- C1 (code evaluated at the failing input): one completed request on node
"A" (1 unit, requested at 0, completed at 2) with one accepted fidelity
sample, simulation time 8.  The snapshot produced by
`calculate_metrics` (via the imported `aggregate_metrics`) has *no*
`fairness_throughput`, `fairness_latency` or `per_node_metrics` keys, and
its `throughput` key holds the last node's windowed throughput
(1 unit / 2 ns × 1e9 = 5·10⁸ states/s), not the global
`total units / simulation time = 1/8`. -/
theorem C1_snapshot_missing_promised_fields :
    (calculate_metrics (record_delivery (record_request (MetricsCollector.init 0) 1 1 "A" 0)
        1 (DeliveryOutcome.state 1 4) 2) 8).fairness_throughput = none ∧
    (calculate_metrics (record_delivery (record_request (MetricsCollector.init 0) 1 1 "A" 0)
        1 (DeliveryOutcome.state 1 4) 2) 8).fairness_latency = none ∧
    (calculate_metrics (record_delivery (record_request (MetricsCollector.init 0) 1 1 "A" 0)
        1 (DeliveryOutcome.state 1 4) 2) 8).per_node_metrics = none ∧
    (calculate_metrics (record_delivery (record_request (MetricsCollector.init 0) 1 1 "A" 0)
        1 (DeliveryOutcome.state 1 4) 2) 8).throughput = some 500000000 ∧
    ((500000000 : ℚ) ≠ 1 / 8) := by
  norm_num [record_delivery, record_request, MetricsCollector.init, _finalize_request,
    dlookup, dinsert, derase, calculate_metrics, aggregate_metrics, runLoop, processReq,
    meanQ, request_latency, unit_latency, scaled_latency, pyMin, pySubQ, pfMean, pfAdd,
    node_throughput_of, node_active_time_of, node_avg_latency_of, emptySnapshot,
    CompletedRequest.asRecord]

/-- C8 (code evaluated at the failing input): a request whose single
accepted delivery records a fidelity sample but fails density-matrix
extraction (`stateDmFail`) completes with no `delivered_state` key; the
aggregator then consumes zero samples, so `mean_fidelity` is absent even
though one accepted sample (value 1) was collected. -/
theorem C8_mean_fidelity_dropped :
    (record_delivery (record_request (MetricsCollector.init 0) 1 1 "A" 0) 1
        (DeliveryOutcome.stateDmFail 1) 2).fidelity_values = [1] ∧
    (calculate_metrics (record_delivery (record_request (MetricsCollector.init 0) 1 1 "A" 0)
        1 (DeliveryOutcome.stateDmFail 1) 2) 8).mean_fidelity = none := by
  norm_num [record_delivery, record_request, MetricsCollector.init, _finalize_request,
    dlookup, dinsert, derase, calculate_metrics, aggregate_metrics, runLoop, processReq,
    meanQ, request_latency, unit_latency, scaled_latency, pyMin, pySubQ, pfMean, pfAdd,
    node_throughput_of, node_active_time_of, node_avg_latency_of, emptySnapshot,
    CompletedRequest.asRecord]

/-- C4 (amended): the two `aggregate_metrics` implementations agree on the
empty request list and, for every input, on `mean_request_latency`,
`mean_unit_latency`, `mean_scaled_latency`, `rejected_states` and
`mean_fidelity`; they differ on the remaining keys (see the
counterexample: the imported version omits the fairness indices,
`per_node_metrics` and the global throughput, splicing the last node's
entries at top level instead). -/
theorem C4_aggregators_partial_agreement (requests : List ReqRecord)
    (simulation_time : ℚ) (fidelity_values : List ℚ) (rejected_states : ℕ) :
    (requests = [] →
      aggregate_metrics requests simulation_time fidelity_values rejected_states =
        MetricsPy.aggregate_metrics requests simulation_time fidelity_values
          rejected_states) ∧
    (aggregate_metrics requests simulation_time fidelity_values
        rejected_states).mean_request_latency =
      (MetricsPy.aggregate_metrics requests simulation_time fidelity_values
        rejected_states).mean_request_latency ∧
    (aggregate_metrics requests simulation_time fidelity_values
        rejected_states).mean_unit_latency =
      (MetricsPy.aggregate_metrics requests simulation_time fidelity_values
        rejected_states).mean_unit_latency ∧
    (aggregate_metrics requests simulation_time fidelity_values
        rejected_states).mean_scaled_latency =
      (MetricsPy.aggregate_metrics requests simulation_time fidelity_values
        rejected_states).mean_scaled_latency ∧
    (aggregate_metrics requests simulation_time fidelity_values
        rejected_states).rejected_states =
      (MetricsPy.aggregate_metrics requests simulation_time fidelity_values
        rejected_states).rejected_states ∧
    (aggregate_metrics requests simulation_time fidelity_values
        rejected_states).mean_fidelity =
      (MetricsPy.aggregate_metrics requests simulation_time fidelity_values
        rejected_states).mean_fidelity := by
  by_cases hreq : requests = []
  · subst hreq
    exact ⟨fun _ => rfl, rfl, rfl, rfl, rfl, rfl⟩
  · have hne := runLoop_per_node_ne_nil fidelity_values requests hreq
    obtain ⟨p, hp⟩ : ∃ p, (runLoop fidelity_values requests).per_node_data.getLast? =
        some p := by
      cases hlast : (runLoop fidelity_values requests).per_node_data.getLast? with
      | none =>
        exact absurd (List.getLast?_eq_none_iff.mp hlast) hne
      | some p => exact ⟨p, rfl⟩
    refine ⟨fun h => absurd h hreq, ?_, ?_, ?_, ?_, ?_⟩ <;>
      simp only [aggregate_metrics, MetricsPy.aggregate_metrics, if_neg hreq, hp]

/-- C4 (counterexample to the frozen claim): at a single completed request
(node "A", 1 unit, requested at 0, completed at 2; simulation time 8) the
imported `aggregate_metrics` has no `fairness_throughput` key while the
`metrics.py` version reports Jain's index `1.0` over the one node, so the
two result dictionaries are not equal. -/
theorem C4_counterexample :
    (aggregate_metrics [{ request_time := 0, completion_time := 2, num_units := 1,
                          node_id := "A", delivered_state := none }]
        8 [] 0).fairness_throughput = none ∧
    (MetricsPy.aggregate_metrics [{ request_time := 0, completion_time := 2, num_units := 1,
                                    node_id := "A", delivered_state := none }]
        8 [] 0).fairness_throughput = some (.num 1) ∧
    aggregate_metrics [{ request_time := 0, completion_time := 2, num_units := 1,
                         node_id := "A", delivered_state := none }] 8 [] 0 ≠
      MetricsPy.aggregate_metrics [{ request_time := 0, completion_time := 2, num_units := 1,
                                     node_id := "A", delivered_state := none }] 8 [] 0 := by
  have h1 : (aggregate_metrics [{ request_time := 0, completion_time := 2, num_units := 1,
                                  node_id := "A", delivered_state := none }]
      8 [] 0).fairness_throughput = none := by
    norm_num [aggregate_metrics, runLoop, processReq, dlookup, dinsert, meanQ,
      request_latency, unit_latency, scaled_latency, pyMin, pySubQ, pfMean, pfAdd,
      node_throughput_of, node_active_time_of, node_avg_latency_of, emptySnapshot]
  have h2 : (MetricsPy.aggregate_metrics [{ request_time := 0, completion_time := 2,
                                            num_units := 1, node_id := "A",
                                            delivered_state := none }]
      8 [] 0).fairness_throughput = some (.num 1) := by
    norm_num [MetricsPy.aggregate_metrics, runLoop, processReq, dlookup, dinsert, meanQ,
      request_latency, unit_latency, scaled_latency, pyMin, pySubQ, pfMean, pfAdd,
      node_throughput_of, node_active_time_of, node_avg_latency_of, emptySnapshot,
      fairness, pyDiv, throughput]
  refine ⟨h1, h2, fun h => ?_⟩
  rw [h, h2] at h1
  exact Option.noConfusion h1

theorem C4_witness :
    (aggregate_metrics ([] : List ReqRecord) 8 [] 0 =
      MetricsPy.aggregate_metrics ([] : List ReqRecord) 8 [] 0) ∧
    (aggregate_metrics [{ request_time := 0, completion_time := 2, num_units := 1,
                          node_id := "A", delivered_state := none }]
        8 [] 0).mean_request_latency =
      (MetricsPy.aggregate_metrics [{ request_time := 0, completion_time := 2, num_units := 1,
                                      node_id := "A", delivered_state := none }]
        8 [] 0).mean_request_latency := by
  have H1 := C4_aggregators_partial_agreement ([] : List ReqRecord) 8 [] 0
  have H2 := C4_aggregators_partial_agreement
    [{ request_time := 0, completion_time := 2, num_units := 1,
       node_id := "A", delivered_state := none }] 8 [] 0
  exact ⟨H1.1 rfl, H2.2.1⟩
